import Mathlib

/-!
Verification of the pyper stage-execution core: a shallow embedding of
`pyper/_core/task.py`, `pyper/_core/sync_helper/stage.py` and
`pyper/_core/util/asynchronize.py`, with theorems about task validation,
stage construction, the worker bodies and the sentinel/completion protocol.
-/

namespace Pyper

/-- Capability flags of a Python callable, as computed once at `Task`
construction via `inspect` (`task.py` lines 31-38). `isGen` stands for
`is_gen` (generator or async-generator function, directly or via
`__call__`); `isAsync` stands for `is_async` (coroutine or
async-generator function, directly or via `__call__`). `isCallable`
models the result of `callable(func)`. -/
structure Func where
  isCallable : Bool
  isGen : Bool
  isAsync : Bool
deriving DecidableEq, Repr

/-- Errors raised by `Task.__init__` (`task.py`): `TypeError` or
`ValueError` with the given message. -/
inductive TaskError where
  | typeErr (msg : String) : TaskError
  | valueErr (msg : String) : TaskError
deriving DecidableEq, Repr

/-- The task descriptor. Fields `func`, `branch`, `join`, `concurrency`,
`throttle`, `daemon` are set by `Task.__init__` (`task.py` lines 48-53).
The `multiprocess` field is an execution-mode hint read by
`stage.py` and `asynchronize.py`; it is set by the `PipelineTask`
subclass, whose definition is not part of the embedded sources, so it is
carried here as plain descriptor data (the spec lists it as a descriptor
field; a plain `Task` leaves it at its default, false).
`isPipelineTask` records whether the runtime object is an instance of
the `PipelineTask` subclass, which `asynchronize` tests with
`isinstance`. Python ints are unbounded, so `concurrency` and
`throttle` are `Int`. -/
structure TaskModel where
  func : Func
  branch : Bool
  join : Bool
  concurrency : Int
  throttle : Int
  daemon : Bool
  multiprocess : Bool
  isPipelineTask : Bool
deriving DecidableEq, Repr

/-- `Task.__init__` (`task.py` lines 10-53): validation checks in source
order, then field assignment. The two `isinstance` checks cannot fail in
a typed embedding where `concurrency` and `throttle` are integers, so
they are omitted. `is_gen` and `is_async` are the capability flags of
`func`. `bind` only wraps the callable in `functools.partial` and is not
modelled. Construction is pure: it either raises or returns the
descriptor, with no other effect. -/
def Task.construct (func : Func) (branch : Bool) (join : Bool)
    (concurrency : Int) (throttle : Int) (daemon : Bool) :
    Except TaskError TaskModel :=
  if concurrency < 1 then
    .error (.valueErr "concurrency cannot be less than 1")
  else if throttle < 0 then
    .error (.valueErr "throttle cannot be less than 0")
  else if func.isCallable = false then
    .error (.typeErr "A task must be a callable object")
  else if branch = true ∧ func.isGen = false then
    .error (.typeErr "A branching task must exhibit generator behaviour")
  else if branch = false ∧ func.isGen = true then
    .error (.typeErr "A non-branching task cannot be a generator")
  else if func.isAsync = true ∧ daemon = true then
    .error (.valueErr "daemon cannot be True for an async task")
  else
    .ok { func := func, branch := branch, join := join,
          concurrency := concurrency, throttle := throttle,
          daemon := daemon, multiprocess := false,
          isPipelineTask := false }

/-- Whether an `Except` value is an error (a raised exception). -/
def exceptIsError : Except ε α → Bool
  | .error _ => true
  | .ok _ => false

/-- Whether either of the two tasks adjacent to a stage-boundary queue
makes the queue cross-process: `task.multiprocess or (next_task is not
None and next_task.multiprocess)` (`stage.py` lines 28-30 and 62-64). -/
def queueIsMultiprocess (task : TaskModel) (next : Option TaskModel) : Bool :=
  task.multiprocess || (match next with
    | some nt => nt.multiprocess
    | none => false)

/-- `n_consumers`: `1 if next_task is None else next_task.concurrency`
(`stage.py` lines 35 and 69). -/
def nConsumersOf (next : Option TaskModel) : Int :=
  match next with
  | none => 1
  | some nt => nt.concurrency

/-- The state a `Producer` (`stage.py` lines 17-36) builds: the output
queue's transport kind and capacity, and the worker/consumer counts. -/
structure ProducerModel where
  qOutMultiprocess : Bool
  qOutMaxsize : Int
  nWorkers : Int
  nConsumers : Int
deriving DecidableEq, Repr

/-- `Producer.__init__` (`stage.py` lines 18-36): raises `RuntimeError`
when the first task has `concurrency > 1` or `join`, otherwise builds
the output queue (cross-process iff either adjacent task is
multiprocessed, capacity `task.throttle`) and records
`n_workers = task.concurrency` and `n_consumers`. -/
def Producer.construct (task : TaskModel) (next : Option TaskModel) :
    Except String ProducerModel :=
  if 1 < task.concurrency then
    .error "The first task in a pipeline cannot have concurrency greater than 1"
  else if task.join = true then
    .error "The first task in a pipeline cannot join previous results"
  else
    .ok { qOutMultiprocess := queueIsMultiprocess task next,
          qOutMaxsize := task.throttle,
          nWorkers := task.concurrency,
          nConsumers := nConsumersOf next }

/-- The state a `ProducerConsumer` (`stage.py` lines 52-79) builds: the
output queue's transport kind and capacity, worker/consumer counts, and
the transport kind of the completion counter and its lock
(`mp.Value` + its lock when `task.multiprocess`, else a plain int and
`threading.Lock`). -/
structure ProducerConsumerModel where
  qOutMultiprocess : Bool
  qOutMaxsize : Int
  nWorkers : Int
  nConsumers : Int
  counterMultiprocess : Bool
deriving DecidableEq, Repr

/-- `ProducerConsumer.__init__` (`stage.py` lines 53-79): no validation;
builds the output queue the same way as `Producer` and chooses the
completion-counter primitive by `task.multiprocess`. -/
def ProducerConsumer.construct (task : TaskModel) (next : Option TaskModel) :
    ProducerConsumerModel :=
  { qOutMultiprocess := queueIsMultiprocess task next,
    qOutMaxsize := task.throttle,
    nWorkers := task.concurrency,
    nConsumers := nConsumersOf next,
    counterMultiprocess := task.multiprocess }

/-- The capability flags of the `async def wrapper` closures created in
`asynchronize` (`asynchronize.py` lines 31-40): a coroutine function,
hence callable, async, and not a generator function. The generator-case
wrapper returns the generator object directly; the sync-case wrapper
dispatches to the process-pool executor when `task.multiprocess` else
the thread-pool executor — that choice affects run-time behaviour only,
not the callable's capability flags. -/
def wrapperFunc : Func :=
  { isCallable := true, isGen := false, isAsync := true }

/-- Modelled from the spec: the `PipelineTask` subclass constructor is
not among the embedded sources (only its caller in `asynchronize.py`
is). Per the call `PipelineTask(wrapper, branch=..., join=...,
workers=..., throttle=...)` and the spec's data model, it produces a
descriptor with the given fields; `daemon` and `multiprocess` are left
at their defaults (false). -/
def pipelineTaskRebuild (func : Func) (branch : Bool) (join : Bool)
    (workers : Int) (throttle : Int) : TaskModel :=
  { func := func, branch := branch, join := join,
    concurrency := workers, throttle := throttle,
    daemon := false, multiprocess := false, isPipelineTask := true }

/-- `Task(wrapper)` (`asynchronize.py` line 50): a plain task built from
the wrapper with every other argument at its default (`branch=False`,
`join=False`, `concurrency=1`, `throttle=0`, `daemon=False`). -/
def plainTaskRebuild (func : Func) : TaskModel :=
  { func := func, branch := false, join := false,
    concurrency := 1, throttle := 0,
    daemon := false, multiprocess := false, isPipelineTask := false }

/-- `asynchronize` (`asynchronize.py` lines 19-50). The executor
arguments `tp`/`pp` only choose the dispatch backend inside the wrapper
closure and do not influence the descriptor returned, so they are not
parameters here. If the task is already async it is returned unchanged;
otherwise a wrapper callable is built (one way for generator tasks, one
for plain sync tasks — both are `async def` closures) and the
descriptor is rebuilt: a `PipelineTask` keeps `branch`, `join`,
`workers`, `throttle`; a plain `Task` is rebuilt as `Task(wrapper)`
with default fields. -/
def asynchronize (task : TaskModel) : TaskModel :=
  if task.func.isAsync = true then
    task
  else
    let wrapper : Func := if task.func.isGen = true then wrapperFunc else wrapperFunc
    if task.isPipelineTask = true then
      pipelineTaskRebuild wrapper task.branch task.join task.concurrency task.throttle
    else
      plainTaskRebuild wrapper

/-- An entry on a stage-boundary queue: a payload, or the
`StopSentinel` end-of-stream marker (`util/sentinel.py`), which is a
distinguished value never equal to a payload. -/
inductive QItem (α : Type) where
  | item (a : α) : QItem α
  | sentinel : QItem α
deriving DecidableEq, Repr

/-- Number of `StopSentinel` entries among a list of queue writes. -/
def countSentinels : List (QItem α) → Nat
  | [] => 0
  | QItem.sentinel :: rest => countSentinels rest + 1
  | QItem.item _ :: rest => countSentinels rest

/-- Outcome of the call `self._enqueue(*args, **kwargs)` in
`Producer._worker` (`stage.py` line 40): the enqueue strategy writes
`emitted` payloads to the output queue and then either returns (also
covering early exit with fewer writes) or raises an exception, here
identified by a numeric code. -/
inductive EnqResult (α : Type) where
  | ok (emitted : List α) : EnqResult α
  | exc (emitted : List α) (e : Nat) : EnqResult α
deriving DecidableEq, Repr

/-- Observable effects of one run of a stage worker: the items this
worker wrote to the output queue in order, the error-queue contents
afterwards, and whether the shutdown event is set afterwards. -/
structure ProducerRun (α : Type) where
  qOut : List (QItem α)
  qErr : List Nat
  shutdownSet : Bool
deriving DecidableEq, Repr

/-- `Producer._worker` (`stage.py` lines 38-46): run the enqueue
strategy; on exception set the shutdown event and put the exception on
the error queue; in the `finally` block unconditionally put
`StopSentinel` on the output queue `n_consumers` times
(`for _ in range(self._n_consumers)`, which iterates
`nConsumers.toNat` times). `shutdown0` is the state of the shutdown
event when the worker runs; the worker never reads it. -/
def Producer.worker (p : ProducerModel) (shutdown0 : Bool)
    (qErr0 : List Nat) (res : EnqResult α) : ProducerRun α :=
  match res with
  | .ok emitted =>
      { qOut := emitted.map QItem.item
          ++ List.replicate p.nConsumers.toNat QItem.sentinel,
        qErr := qErr0,
        shutdownSet := shutdown0 }
  | .exc emitted e =>
      { qOut := emitted.map QItem.item
          ++ List.replicate p.nConsumers.toNat QItem.sentinel,
        qErr := qErr0 ++ [e],
        shutdownSet := true }

/-- Outcome of iterating `self._dequeue()` in
`ProducerConsumer._worker` (`stage.py` line 97): the dequeue strategy
yields the outputs in order and then either terminates normally or
raises an exception after the listed outputs were processed. -/
inductive DeqResult (α : Type) where
  | ok (outputs : List α) : DeqResult α
  | exc (outputs : List α) (e : Nat) : DeqResult α
deriving DecidableEq, Repr

/-- Payloads of a `DeqResult`. -/
def DeqResult.outputs : DeqResult α → List α
  | .ok os => os
  | .exc os _ => os

/-- The loop body of `ProducerConsumer._worker` (`stage.py` lines
97-99): `for output in self._dequeue(): if not
self._shutdown_event.is_set(): self._enqueue(output)`. `flagAt i` is
the value of `shutdown_event.is_set()` this worker observes just
before its `i`-th potential enqueue (the event may be set concurrently
by any other worker). Returns the payloads actually enqueued, in
order, and the number of loop iterations performed. -/
def relayLoop (flagAt : Nat → Bool) (i : Nat) : List α → List α × Nat
  | [] => ([], 0)
  | o :: os =>
      let r := relayLoop flagAt (i + 1) os
      (if flagAt i then r.1 else o :: r.1, r.2 + 1)

/-- The sentinel writes of `ProducerConsumer._finish` (`stage.py` lines
90-93) given the value returned by `_increment_workers_done`: when the
post-increment counter equals `n_workers`, put `StopSentinel` on the
output queue `n_consumers` times, else write nothing. -/
def finishWrites (pc : ProducerConsumerModel) (observed : Int) :
    List (QItem α) :=
  if observed = pc.nWorkers then
    List.replicate pc.nConsumers.toNat QItem.sentinel
  else []

/-- Observable effects of one run of `ProducerConsumer._worker`: queue
writes by this worker in order, error-queue contents afterwards,
whether this worker set the shutdown event, the completion counter
after this worker's `finally`, and the number of dequeue iterations
this worker consumed. -/
structure RelayRun (α : Type) where
  qOutWrites : List (QItem α)
  qErr : List Nat
  shutdownSet : Bool
  counter : Int
  consumed : Nat
deriving DecidableEq, Repr

/-- `ProducerConsumer._worker` (`stage.py` lines 95-104): iterate the
dequeue strategy, enqueueing each output unless the shutdown event is
observed set; on exception set the shutdown event and put the
exception on the error queue; in the `finally` block call `_finish`,
which atomically increments the shared completion counter from
`counter0` and writes the sentinels iff the post-increment value
equals `n_workers`. -/
def ProducerConsumer.worker (pc : ProducerConsumerModel)
    (flagAt : Nat → Bool) (counter0 : Int) (qErr0 : List Nat)
    (res : DeqResult α) : RelayRun α :=
  match res with
  | .ok outputs =>
      let r := relayLoop flagAt 0 outputs
      { qOutWrites := r.1.map QItem.item ++ finishWrites pc (counter0 + 1),
        qErr := qErr0,
        shutdownSet := false,
        counter := counter0 + 1,
        consumed := r.2 }
  | .exc outputs e =>
      let r := relayLoop flagAt 0 outputs
      { qOutWrites := r.1.map QItem.item ++ finishWrites pc (counter0 + 1),
        qErr := qErr0 ++ [e],
        shutdownSet := true,
        counter := counter0 + 1,
        consumed := r.2 }

/-- One event in the interleaved `finally` phases of a relay stage's
workers: worker `w` performs its atomic increment of the completion
counter, or worker `w` writes one `StopSentinel` to the output
queue. -/
inductive FinEvent where
  | incr (w : Nat) : FinEvent
  | sentinelWrite (w : Nat) : FinEvent
deriving DecidableEq, Repr

/-- Number of sentinel-write events in a finish trace. -/
def countSentinelWrites : List FinEvent → Nat
  | [] => 0
  | FinEvent.sentinelWrite _ :: rest => countSentinelWrites rest + 1
  | FinEvent.incr _ :: rest => countSentinelWrites rest

/-- The last worker id in a lock-acquisition order (0 for an empty
order; every order considered is nonempty). -/
def lastId : List Nat → Nat
  | [] => 0
  | [w] => w
  | _ :: w :: ws => lastId (w :: ws)

/-- The event trace of the workers' `finally` phases, given the order
in which the workers acquire the completion-counter lock. Because
`_increment_workers_done` runs under the lock, any interleaving of the
`c` workers' `finally` phases is determined by that acquisition order:
the worker at position `k` observes post-increment value
`counter0 + k + 1`, and per `_finish` emits `n_consumers` sentinel
writes exactly when that value equals `n_workers`. The worker bodies
before `finally` (success or failure) do not influence `_finish`. -/
def finishTracesFrom (nWorkers nConsumers : Int) (counter0 : Int) :
    List Nat → List FinEvent
  | [] => []
  | w :: ws =>
      (FinEvent.incr w ::
        (if counter0 + 1 = nWorkers then
          List.replicate nConsumers.toNat (FinEvent.sentinelWrite w)
        else []))
      ++ finishTracesFrom nWorkers nConsumers (counter0 + 1) ws

/-- The finish trace of one relay-stage run: the counter starts at 0
and each worker increments it exactly once, in lock-acquisition order
`order`. -/
def stageFinishTrace (pc : ProducerConsumerModel) (order : List Nat) :
    List FinEvent :=
  finishTracesFrom pc.nWorkers pc.nConsumers 0 order

/-! ## Helper lemmas -/

theorem countSentinels_append (a b : List (QItem α)) :
    countSentinels (a ++ b) = countSentinels a + countSentinels b := by
  induction a with
  | nil => simp [countSentinels]
  | cons x rest ih => cases x <;> simp [countSentinels, ih] <;> omega

theorem countSentinels_map_item (xs : List α) :
    countSentinels (xs.map QItem.item) = 0 := by
  induction xs with
  | nil => rfl
  | cons x rest ih => simpa [countSentinels] using ih

theorem countSentinels_replicate (n : Nat) :
    countSentinels (List.replicate n (QItem.sentinel (α := α))) = n := by
  induction n with
  | zero => rfl
  | succ k ih => simp [List.replicate_succ, countSentinels, ih]

theorem countSentinelWrites_append (a b : List FinEvent) :
    countSentinelWrites (a ++ b)
      = countSentinelWrites a + countSentinelWrites b := by
  induction a with
  | nil => simp [countSentinelWrites]
  | cons x rest ih => cases x <;> simp [countSentinelWrites, ih] <;> omega

theorem countSentinelWrites_map_incr (ws : List Nat) :
    countSentinelWrites (ws.map FinEvent.incr) = 0 := by
  induction ws with
  | nil => rfl
  | cons w rest ih => simpa [countSentinelWrites] using ih

theorem countSentinelWrites_replicate (n : Nat) (w : Nat) :
    countSentinelWrites (List.replicate n (FinEvent.sentinelWrite w)) = n := by
  induction n with
  | zero => rfl
  | succ k ih => simp [List.replicate_succ, countSentinelWrites, ih]

theorem queueIsMultiprocess_iff (task : TaskModel) (next : Option TaskModel) :
    queueIsMultiprocess task next = true ↔
      (task.multiprocess = true ∨
        ∃ nt, next = some nt ∧ nt.multiprocess = true) := by
  cases next <;> simp [queueIsMultiprocess]

/-! ## Task validation (C3) -/

/-- C3: `Task` construction returns a descriptor, and raises a
construction-time error exactly when the input is non-callable, or
`concurrency < 1`, or `throttle < 0`, or `branch` is true for a
non-generator callable, or `branch` is false for a generator callable,
or `daemon` is true for an async callable; on success the returned
descriptor carries exactly the given fields (construction is pure, so
it has no effect beyond raising). -/
theorem task_construct_validation
    (func : Func) (branch join : Bool) (concurrency throttle : Int)
    (daemon : Bool) :
    (exceptIsError (Task.construct func branch join concurrency throttle daemon)
        = true ↔
      (func.isCallable = false ∨ concurrency < 1 ∨ throttle < 0 ∨
        (branch = true ∧ func.isGen = false) ∨
        (branch = false ∧ func.isGen = true) ∨
        (daemon = true ∧ func.isAsync = true))) ∧
    (∀ t, Task.construct func branch join concurrency throttle daemon
        = Except.ok t →
      t.func = func ∧ t.branch = branch ∧ t.join = join ∧
      t.concurrency = concurrency ∧ t.throttle = throttle ∧
      t.daemon = daemon) := by
  constructor
  · obtain ⟨fc, fg, fa⟩ := func
    cases fc <;> cases fg <;> cases fa <;> cases branch <;> cases daemon <;>
      simp [Task.construct, exceptIsError] <;> split_ifs <;> simp_all
  · intro t ht
    unfold Task.construct at ht
    split_ifs at ht
    simp only [Except.ok.injEq] at ht
    subst ht
    exact ⟨rfl, rfl, rfl, rfl, rfl, rfl⟩

/-- Witness for C3 at a concrete input: a callable, non-generator,
non-async function with `concurrency = 2`, `throttle = 5` is accepted
and the descriptor carries those fields. -/
theorem task_construct_validation_witness :
    Task.construct ⟨true, false, false⟩ false false 2 5 false
      = Except.ok (TaskModel.mk ⟨true, false, false⟩ false false 2 5 false false false) ∧
    TaskModel.concurrency (TaskModel.mk ⟨true, false, false⟩ false false 2 5 false false false) = 2 :=
  ⟨rfl,
    ((task_construct_validation ⟨true, false, false⟩ false false 2 5
      false).2 _ rfl).2.2.2.1⟩

/-! ## First-stage constraint (C6) -/

/-- C6: constructing the source stage runner raises exactly when the
first task has `concurrency > 1` or `join = true`; with
`concurrency = 1` and `join = false` this constraint never fires. -/
theorem producer_construct_first_stage
    (task : TaskModel) (next : Option TaskModel) :
    exceptIsError (Producer.construct task next) = true ↔
      (1 < task.concurrency ∨ task.join = true) := by
  unfold Producer.construct
  split_ifs with h1 h2 <;> simp_all [exceptIsError]

/-! ## Adapter idempotence (C7) -/

/-- C7: the async-unification adapter returns an already-async
descriptor unchanged — the same descriptor. -/
theorem asynchronize_async_unchanged (task : TaskModel)
    (h : task.func.isAsync = true) :
    asynchronize task = task := by
  simp [asynchronize, h]

/-- Witness for C7 at a concrete input: an async descriptor passes
through the adapter untouched. -/
theorem asynchronize_async_unchanged_witness :
    asynchronize (TaskModel.mk ⟨true, false, true⟩ false false 4 2 false false true)
      = TaskModel.mk ⟨true, false, true⟩ false false 4 2 false false true :=
  asynchronize_async_unchanged _ rfl

/-! ## Adapter field preservation (C8) -/

/-- C8 counterexample: a valid, constructible, non-async plain `Task`
with `concurrency = 2` comes out of the adapter with `concurrency = 1`
(it is rebuilt as `Task(wrapper)` with default fields), so the claim
that every non-async descriptor keeps its `branch`, `join`,
`concurrency`, `throttle` fields is false. -/
theorem asynchronize_plain_task_counterexample :
    Task.construct ⟨true, false, false⟩ false false 2 7 false
      = Except.ok (TaskModel.mk ⟨true, false, false⟩ false false 2 7 false false false) ∧
    TaskModel.concurrency (asynchronize (TaskModel.mk ⟨true, false, false⟩ false false 2 7 false false false)) = 1 ∧
    TaskModel.throttle (asynchronize (TaskModel.mk ⟨true, false, false⟩ false false 2 7 false false false)) = 0 :=
  ⟨rfl, rfl, rfl⟩

/-- C8 amended: for every non-async `PipelineTask` descriptor, the
adapter preserves `branch`, `join`, `concurrency` (its `workers`) and
`throttle`, and only the callable is replaced (by the async wrapper);
a plain non-async `Task` is instead rebuilt with default fields. -/
theorem asynchronize_pipeline_task_preserves_fields (task : TaskModel)
    (ha : task.func.isAsync = false) (hp : task.isPipelineTask = true) :
    (asynchronize task).branch = task.branch ∧
    (asynchronize task).join = task.join ∧
    (asynchronize task).concurrency = task.concurrency ∧
    (asynchronize task).throttle = task.throttle ∧
    (asynchronize task).func = wrapperFunc := by
  simp [asynchronize, ha, hp, pipelineTaskRebuild]

/-- Witness for the amended C8 at a concrete input. -/
theorem asynchronize_pipeline_task_preserves_fields_witness :
    TaskModel.concurrency (asynchronize (TaskModel.mk ⟨true, true, false⟩ true false 3 9 false false true))
      = TaskModel.concurrency (TaskModel.mk ⟨true, true, false⟩ true false 3 9 false false true) :=
  (asynchronize_pipeline_task_preserves_fields _ rfl rfl).2.2.1

/-! ## Queue capacity and transport selection (C9) -/

/-- C9: for both stage runners, the output queue's capacity equals the
producing task's `throttle` (a maxsize of 0 means unbounded for both
`queue.Queue` and `mp.Queue`), and the queue is the cross-process
implementation exactly when the producing task or the next task (when
present) is multiprocessed. -/
theorem stage_queue_selection (task : TaskModel) (next : Option TaskModel) :
    (∀ p, Producer.construct task next = Except.ok p →
      p.qOutMaxsize = task.throttle ∧
      (p.qOutMultiprocess = true ↔
        (task.multiprocess = true ∨
          ∃ nt, next = some nt ∧ nt.multiprocess = true))) ∧
    ((ProducerConsumer.construct task next).qOutMaxsize = task.throttle ∧
      ((ProducerConsumer.construct task next).qOutMultiprocess = true ↔
        (task.multiprocess = true ∨
          ∃ nt, next = some nt ∧ nt.multiprocess = true))) := by
  constructor
  · intro p hp
    unfold Producer.construct at hp
    split_ifs at hp
    simp only [Except.ok.injEq] at hp
    subst hp
    exact ⟨rfl, queueIsMultiprocess_iff task next⟩
  · exact ⟨rfl, queueIsMultiprocess_iff task next⟩

/-- Witness for C9 at a concrete input: a single-worker first task with
`throttle = 4` next to a multiprocessed task yields a cross-process
queue of capacity 4. -/
theorem stage_queue_selection_witness :
    ProducerModel.qOutMaxsize (ProducerModel.mk true 4 1 3)
        = TaskModel.throttle (TaskModel.mk ⟨true, false, false⟩ false false 1 4 false false false) ∧
    ProducerModel.qOutMultiprocess (ProducerModel.mk true 4 1 3) = true :=
  have h := (stage_queue_selection
    (TaskModel.mk ⟨true, false, false⟩ false false 1 4 false false false)
    (some (TaskModel.mk ⟨true, false, false⟩ false false 3 0 false true false))).1
    (ProducerModel.mk true 4 1 3) rfl
  ⟨h.1, h.2.mpr (Or.inr ⟨_, rfl, rfl⟩)⟩

/-! ## Source-stage sentinel accounting (C2) -/

/-- C2: every run of the source stage worker — enqueue success,
exception, or early exit with fewer writes — ends by pushing exactly
`n_consumers` sentinels to the output queue, where `n_consumers` is the
next stage's concurrency, or 1 when there is no next stage; the
sentinel pushes are a suffix of the worker's queue writes and are never
skipped. -/
theorem producer_worker_sentinels {α : Type}
    (task : TaskModel) (next : Option TaskModel) (p : ProducerModel)
    (shutdown0 : Bool) (qErr0 : List Nat) (res : EnqResult α)
    (hp : Producer.construct task next = Except.ok p)
    (hnext : ∀ nt, next = some nt → 1 ≤ nt.concurrency) :
    p.nConsumers = nConsumersOf next ∧
    ((countSentinels (Producer.worker p shutdown0 qErr0 res).qOut : Int)
      = p.nConsumers) ∧
    (∃ pre : List (QItem α),
      (Producer.worker p shutdown0 qErr0 res).qOut
        = pre ++ List.replicate p.nConsumers.toNat QItem.sentinel ∧
      countSentinels pre = 0) := by
  have hcons : p.nConsumers = nConsumersOf next := by
    unfold Producer.construct at hp
    split_ifs at hp
    simp only [Except.ok.injEq] at hp
    subst hp
    rfl
  have hpos : (0 : Int) ≤ p.nConsumers := by
    rw [hcons]
    cases hn : next with
    | none => simp [nConsumersOf]
    | some nt =>
        have h1 := hnext nt hn
        simp only [nConsumersOf]
        omega
  refine ⟨hcons, ?_, ?_⟩
  · cases res <;>
      simp [Producer.worker, countSentinels_append, countSentinels_map_item,
        countSentinels_replicate, Int.toNat_of_nonneg hpos]
  · cases res with
    | ok emitted =>
        exact ⟨emitted.map QItem.item, rfl, countSentinels_map_item emitted⟩
    | exc emitted e =>
        exact ⟨emitted.map QItem.item, rfl, countSentinels_map_item emitted⟩

/-- Witness for C2 at a concrete input: first stage feeding a
three-worker stage, enqueue raises after two payloads; exactly three
sentinels are pushed, after the payloads. -/
theorem producer_worker_sentinels_witness :
    ProducerModel.nConsumers (ProducerModel.mk false 0 1 3)
      = nConsumersOf (some (TaskModel.mk ⟨true, false, false⟩ false false 3 0 false false false)) ∧
    ((countSentinels (Producer.worker (ProducerModel.mk false 0 1 3) false []
        (EnqResult.exc [10, 11] 99)).qOut : Int)
      = ProducerModel.nConsumers (ProducerModel.mk false 0 1 3)) ∧
    (∃ pre : List (QItem Nat),
      (Producer.worker (ProducerModel.mk false 0 1 3) false []
        (EnqResult.exc [10, 11] 99)).qOut
        = pre ++ List.replicate (Int.toNat (ProducerModel.nConsumers (ProducerModel.mk false 0 1 3))) QItem.sentinel ∧
      countSentinels pre = 0) :=
  producer_worker_sentinels
    (TaskModel.mk ⟨true, false, false⟩ false false 1 0 false false false)
    (some (TaskModel.mk ⟨true, false, false⟩ false false 3 0 false false false))
    (ProducerModel.mk false 0 1 3) false [] (EnqResult.exc [10, 11] 99)
    rfl (by intro nt h; cases h; decide)

/-! ## Worker-boundary exception handling (C5) -/

/-- C5: when task logic raises inside a worker body — the enqueue
strategy of the source worker, or the dequeue/enqueue loop of a relay
worker — the worker catches the exception (the run is an ordinary,
fully defined worker run rather than a propagated failure), sets the
shutdown event, appends the exception object to the error queue, and
still executes its cleanup phase (sentinel writes for the source
worker; the `_finish` increment for a relay worker). -/
theorem worker_exception_handling {α : Type}
    (p : ProducerModel) (pc : ProducerConsumerModel)
    (flagAt : Nat → Bool) (shutdown0 : Bool) (counter0 : Int)
    (qErr0 : List Nat) (emitted outputs : List α) (e : Nat) :
    (Producer.worker p shutdown0 qErr0 (EnqResult.exc emitted e)).shutdownSet
      = true ∧
    (Producer.worker p shutdown0 qErr0 (EnqResult.exc emitted e)).qErr
      = qErr0 ++ [e] ∧
    (Producer.worker p shutdown0 qErr0 (EnqResult.exc emitted e)).qOut
      = emitted.map QItem.item
        ++ List.replicate p.nConsumers.toNat QItem.sentinel ∧
    (ProducerConsumer.worker pc flagAt counter0 qErr0
        (DeqResult.exc outputs e)).shutdownSet = true ∧
    (ProducerConsumer.worker pc flagAt counter0 qErr0
        (DeqResult.exc outputs e)).qErr = qErr0 ++ [e] ∧
    (ProducerConsumer.worker pc flagAt counter0 qErr0
        (DeqResult.exc outputs e)).counter = counter0 + 1 :=
  ⟨rfl, rfl, rfl, rfl, rfl, rfl⟩

/-! ## Relay loop lemmas -/

theorem relayLoop_consumed {α : Type} (f : Nat → Bool) :
    ∀ (os : List α) (i : Nat), (relayLoop f i os).2 = os.length := by
  intro os
  induction os with
  | nil => intro i; rfl
  | cons o rest ih => intro i; simp [relayLoop, ih (i + 1)]

theorem relayLoop_sublist {α : Type} (f : Nat → Bool) :
    ∀ (os : List α) (i : Nat), List.Sublist (relayLoop f i os).1 os := by
  intro os
  induction os with
  | nil => intro i; simp [relayLoop]
  | cons o rest ih =>
      intro i
      by_cases h : f i
      · simp only [relayLoop, h, if_true]
        exact List.Sublist.cons o (ih (i + 1))
      · simp only [relayLoop, h, if_false]
        exact List.Sublist.cons₂ o (ih (i + 1))

theorem relayLoop_flag_never_set {α : Type} :
    ∀ (os : List α) (i : Nat),
      (relayLoop (fun _ => false) i os).1 = os := by
  intro os
  induction os with
  | nil => intro i; rfl
  | cons o rest ih => intro i; simp [relayLoop, ih (i + 1)]

theorem relayLoop_flag_always_set {α : Type} :
    ∀ (os : List α) (i : Nat),
      (relayLoop (fun _ => true) i os).1 = [] := by
  intro os
  induction os with
  | nil => intro i; rfl
  | cons o rest ih => intro i; simp [relayLoop, ih (i + 1)]

/-- When the observed shutdown flag is monotonic and first reads true
at step `t`, the relay loop enqueues exactly the outputs before step
`t` and drops the rest. -/
theorem relayLoop_threshold {α : Type} (f : Nat → Bool) (t : Nat)
    (hf : ∀ k, f k = true ↔ t ≤ k) :
    ∀ (os : List α) (i : Nat), (relayLoop f i os).1 = os.take (t - i) := by
  intro os
  induction os with
  | nil => intro i; simp [relayLoop]
  | cons o rest ih =>
      intro i
      by_cases h : f i
      · have hti : t ≤ i := (hf i).mp h
        have h0 : t - i = 0 := by omega
        simp [relayLoop, h, ih (i + 1), h0, Nat.sub_eq_zero_of_le, hti]
        omega
      · have hti : ¬ t ≤ i := fun hc => h ((hf i).mpr hc)
        have hsucc : t - i = (t - (i + 1)) + 1 := by omega
        simp only [relayLoop, h, if_false, ih (i + 1), hsucc, List.take_succ_cons]
        simp

/-! ## Relay worker drains its upstream (C10) -/

/-- C10: a relay worker iterates its dequeue sequence to exhaustion no
matter what the shutdown flag does: the number of consumed iterations
always equals the length of the dequeued sequence (for normal and for
exceptional termination of the sequence itself), the flag only filters
which outputs get enqueued (the enqueued items are a sublist of the
outputs), nothing is dropped while the flag stays unset, and a
permanently set flag drops every output while the loop still consumes
them all. -/
theorem relay_worker_drains_upstream {α : Type}
    (pc : ProducerConsumerModel) (flagAt : Nat → Bool) (counter0 : Int)
    (qErr0 : List Nat) (res : DeqResult α) :
    (ProducerConsumer.worker pc flagAt counter0 qErr0 res).consumed
      = res.outputs.length ∧
    List.Sublist (relayLoop flagAt 0 res.outputs).1 res.outputs ∧
    (relayLoop (fun _ => false) 0 res.outputs).1 = res.outputs ∧
    (relayLoop (fun _ => true) 0 res.outputs).1 = [] ∧
    (relayLoop flagAt 0 res.outputs).2 = res.outputs.length := by
  refine ⟨?_, relayLoop_sublist flagAt res.outputs 0,
    relayLoop_flag_never_set res.outputs 0,
    relayLoop_flag_always_set res.outputs 0,
    relayLoop_consumed flagAt res.outputs 0⟩
  cases res with
  | ok outputs => simpa [ProducerConsumer.worker, DeqResult.outputs]
      using relayLoop_consumed flagAt outputs 0
  | exc outputs e => simpa [ProducerConsumer.worker, DeqResult.outputs]
      using relayLoop_consumed flagAt outputs 0

/-! ## Shutdown-flag observation (C4) -/

/-- C4 counterexample: the source stage worker does not consult the
shutdown flag. With the flag already set (`shutdown0 = true`), a
successful source worker run still enqueues its payload — the output
is not suppressed — so the claim that every worker of every stage
observes the flag before every enqueue and suppresses output once it
is set is false. The producer state used here is exactly the one built
from a valid single-worker first task with no next stage. -/
theorem shutdown_flag_counterexample :
    Producer.construct (TaskModel.mk ⟨true, false, false⟩ false false 1 0 false false false) none
      = Except.ok (ProducerModel.mk false 0 1 1) ∧
    (Producer.worker (ProducerModel.mk false 0 1 1) true []
        (EnqResult.ok [5])).qOut = [QItem.item 5, QItem.sentinel] ∧
    (Producer.worker (ProducerModel.mk false 0 1 1) true []
        (EnqResult.ok [5])).shutdownSet = true :=
  ⟨rfl, rfl, rfl⟩

/-- C4 amended: every relay stage worker observes the shutdown flag
before each enqueue and, once the flag is set, its subsequent outputs
are dropped rather than enqueued (with a monotonic flag first observed
true at step `t`, exactly the first `t` outputs are enqueued and the
rest are suppressed, while the loop still consumes everything); the
source stage worker, by contrast, never reads the flag and enqueues
its outputs unconditionally. -/
theorem shutdown_flag_gates_relay_enqueues {α : Type}
    (f : Nat → Bool) (t : Nat) (os emitted : List α)
    (p : ProducerModel) (qErr0 : List Nat)
    (hf : ∀ k, f k = true ↔ t ≤ k) :
    (relayLoop f 0 os).1 = os.take t ∧
    (relayLoop f 0 os).2 = os.length ∧
    (Producer.worker p true qErr0 (EnqResult.ok emitted)).qOut
      = emitted.map QItem.item
        ++ List.replicate p.nConsumers.toNat QItem.sentinel := by
  refine ⟨?_, relayLoop_consumed f os 0, rfl⟩
  simpa using relayLoop_threshold f t hf os 0

/-- Witness for the amended C4 at a concrete input: flag first
observed set at step 2; of four outputs only the first two are
enqueued, all four are consumed. -/
theorem shutdown_flag_gates_relay_enqueues_witness :
    (relayLoop (fun k => decide (2 ≤ k)) 0 [10, 11, 12, 13]).1 = [10, 11] ∧
    (relayLoop (fun k => decide (2 ≤ k)) 0 [10, 11, 12, 13]).2 = 4 :=
  have h := shutdown_flag_gates_relay_enqueues
    (fun k => decide (2 ≤ k)) 2 [10, 11, 12, 13] [] (ProducerModel.mk false 0 1 1) []
    (fun k => by simp)
  ⟨h.1.trans (by decide), h.2.1⟩

/-! ## Relay-stage finish protocol (C1) -/

/-- One step of `finishTracesFrom`. -/
theorem finishTracesFrom_cons (c m counter0 : Int) (w : Nat) (ws : List Nat) :
    finishTracesFrom c m counter0 (w :: ws)
      = (FinEvent.incr w ::
          (if counter0 + 1 = c then
            List.replicate m.toNat (FinEvent.sentinelWrite w)
          else []))
        ++ finishTracesFrom c m (counter0 + 1) ws := rfl

/-- Structure of the interleaved `finally` phases: when the workers'
lock acquisitions exhaust the counter up to `c`, the trace is all the
increments in order followed by the sentinel block, written by the
worker whose post-increment value reached `c` — the last one to
acquire the lock. -/
theorem finishTracesFrom_last (c m : Int) :
    ∀ (ws : List Nat) (counter0 : Int), ws ≠ [] →
      counter0 + (ws.length : Int) = c →
      finishTracesFrom c m counter0 ws
        = ws.map FinEvent.incr
          ++ List.replicate m.toNat (FinEvent.sentinelWrite (lastId ws)) := by
  intro ws
  induction ws with
  | nil => intro counter0 hne _; exact absurd rfl hne
  | cons w rest ih =>
      intro counter0 _ hlen
      cases rest with
      | nil =>
          have hc : counter0 + 1 = c := by simpa using hlen
          simp [finishTracesFrom, hc, lastId]
      | cons w2 rest2 =>
          have hku : counter0 + 1 + ((w2 :: rest2).length : Int) = c := by
            simp only [List.length_cons] at hlen ⊢
            push_cast at hlen ⊢
            omega
          have hne2 : ¬ (counter0 + 1 = c) := by
            simp only [List.length_cons] at hlen
            push_cast at hlen
            omega
          have hrec := ih (counter0 + 1) (by simp) hku
          rw [finishTracesFrom_cons, if_neg hne2, hrec]
          simp [lastId]

/-- C1: for a relay stage built from `task` and its successor, under
every interleaving of the workers' `finally` phases (every
lock-acquisition order covering the stage's `n_workers` workers, with
worker bodies free to succeed or fail), the finish trace is exactly
all completion-counter increments followed by one block of
`n_consumers` sentinel writes; the sentinel count is `n_consumers`
(the next stage's concurrency, or 1 for a last stage, written at most
— and exactly — once); every sentinel write is performed by the single
worker that acquired the lock last, i.e. the one whose post-increment
value equals `n_workers`; and every worker run, success or failure,
performs its `_finish` increment exactly once. -/
theorem relay_finish_single_writer
    (task : TaskModel) (next : Option TaskModel)
    (pc : ProducerConsumerModel) (order : List Nat)
    (hpc : pc = ProducerConsumer.construct task next)
    (hne : order ≠ [])
    (hlen : (order.length : Int) = pc.nWorkers) :
    stageFinishTrace pc order
      = order.map FinEvent.incr
        ++ List.replicate pc.nConsumers.toNat
            (FinEvent.sentinelWrite (lastId order)) ∧
    countSentinelWrites (stageFinishTrace pc order)
      = pc.nConsumers.toNat ∧
    (∀ w, FinEvent.sentinelWrite w ∈ stageFinishTrace pc order →
      w = lastId order) ∧
    pc.nConsumers = nConsumersOf next ∧
    (∀ (α : Type) (flagAt : Nat → Bool) (counter0 : Int)
        (qErr0 : List Nat) (res : DeqResult α),
      (ProducerConsumer.worker pc flagAt counter0 qErr0 res).counter
        = counter0 + 1) := by
  have heq : stageFinishTrace pc order
      = order.map FinEvent.incr
        ++ List.replicate pc.nConsumers.toNat
            (FinEvent.sentinelWrite (lastId order)) := by
    unfold stageFinishTrace
    exact finishTracesFrom_last pc.nWorkers pc.nConsumers order 0 hne
      (by simpa using hlen)
  refine ⟨heq, ?_, ?_, ?_, ?_⟩
  · rw [heq, countSentinelWrites_append, countSentinelWrites_map_incr,
      countSentinelWrites_replicate]
    omega
  · intro w hw
    rw [heq] at hw
    rcases List.mem_append.mp hw with hl | hr
    · rcases List.mem_map.mp hl with ⟨x, _, hx⟩
      exact absurd hx (by simp)
    · have h2 := List.eq_of_mem_replicate hr
      injection h2 with h3
  · rw [hpc]; rfl
  · intro α flagAt counter0 qErr0 res
    cases res <;> rfl

/-- Witness for C1 at a concrete input: a three-worker relay stage
feeding a two-worker stage, lock order 7, 8, 9 — the trace is the
three increments then two sentinel writes by worker 9. -/
theorem relay_finish_single_writer_witness :
    stageFinishTrace (ProducerConsumerModel.mk false 0 3 2 false) [7, 8, 9]
      = List.map FinEvent.incr [7, 8, 9]
        ++ List.replicate (Int.toNat 2)
            (FinEvent.sentinelWrite (lastId [7, 8, 9])) ∧
    countSentinelWrites
        (stageFinishTrace (ProducerConsumerModel.mk false 0 3 2 false) [7, 8, 9])
      = Int.toNat 2 :=
  have h := relay_finish_single_writer
    (TaskModel.mk ⟨true, false, false⟩ false false 3 0 false false false)
    (some (TaskModel.mk ⟨true, false, false⟩ false false 2 0 false false false))
    (ProducerConsumerModel.mk false 0 3 2 false) [7, 8, 9]
    rfl (by simp) rfl
  ⟨h.1, h.2.1⟩

end Pyper
